import Mathlib

/-!
Shallow embedding of the asyncLio-bot core (src/lichess.py and
src/event_handler.py): the retrying command executor (Lichess.get /
Lichess.post wrapped in backoff.on_exception), the resilient stream
readers (Lichess.watch_control_stream / Lichess.watch_game_stream), the
endpoint wrappers the claims touch (Lichess.accept_challenge,
Lichess.get_ongoing_games), and the event dispatcher (EventHandler.run).

Modelling conventions:
- HTTP interactions are mocked by environments: a command invocation sees a
  sequence of attempt outcomes (network error or a response), a stream
  reader sees a sequence of session outcomes (connect failure, or an open
  response with a status, a list of delivered lines and a way the line
  iteration ends).
- json.loads is an abstract parameter decode : String → Except PyError Event;
  the synthetic ping dict built by the source for blank lines is pingEvent.
- Coroutines that may loop forever (the backoff retry loop, the
  while-True reconnect loops) are fuel-indexed; running out of fuel is the
  distinguished stillRunning / none outcome, never confused with
  termination.
- Wall-clock time in the backoff decorator is modelled by an explicit
  elapsed counter advanced by the per-retry sleep delays, which are a
  parameter (the library draws them with jitter from an exponential
  schedule); giving up happens exactly when max_time is set and the elapsed
  time has reached it, as in backoff's max_time check.
-/

namespace AsyncLio

/-- An HTTP response as the client code observes it: a numeric status code
and a body already shaped as the endpoint-specific data the source
extracts. Statuses are assumed in the real range 100-599. -/
structure Response (α : Type) where
  status_code : Nat
  body : α
deriving DecidableEq

/-- The Python exception classes that matter to this core:
httpx transport/network errors (httpx.RequestError and subclasses),
json.JSONDecodeError, and httpx.HTTPStatusError carrying the status. -/
inductive PyError where
  | transportError
  | decodeError
  | httpStatusError (code : Nat)
deriving DecidableEq

/-- One physical request attempt as the environment resolves it: either the
transport raises a network error, or a response comes back. -/
inductive Attempt (α : Type) where
  | netErr
  | resp (r : Response α)
deriving DecidableEq

namespace Lichess

/-- The body of Lichess.get / Lichess.post (the function the backoff
decorator wraps): issue the request; a status below 500 is returned as-is,
a 5xx triggers response.raise_for_status(), i.e. raises HTTPStatusError;
a transport fault raises the network error. -/
def requestOnce {α : Type} (a : Attempt α) : Except PyError (Response α) :=
  match a with
  | .netErr => .error .transportError
  | .resp r =>
    if r.status_code < 500 then .ok r
    else .error (.httpStatusError r.status_code)

/-- backoff's give-up test: with max_time set, stop retrying once the
elapsed time has reached it; with no max_time, never give up on time. -/
def giveupTime (maxTime : Option Nat) (elapsed : Nat) : Bool :=
  match maxTime with
  | some T => decide (T ≤ elapsed)
  | none => false

/-- Models backoff.on_exception(backoff.expo, httpx.HTTPStatusError,
max_time := maxTime) around requestOnce: a raised HTTPStatusError is
retried after sleeping delays i (unless the give-up test fires, in which
case the exception is re-raised); any other exception propagates
immediately; a returned response ends the loop. Fuel bounds the number of
attempts observed; none means the loop was still retrying when the fuel
ran out. -/
def backoffRetry {α : Type} (maxTime : Option Nat) (delays : Nat → Nat)
    (attempts : Nat → Attempt α) :
    Nat → Nat → Nat → Option (Except PyError (Response α))
  | 0, _, _ => none
  | fuel + 1, i, elapsed =>
    match requestOnce (attempts i) with
    | .ok r => some (.ok r)
    | .error .transportError => some (.error .transportError)
    | .error .decodeError => some (.error .decodeError)
    | .error (.httpStatusError c) =>
      if giveupTime maxTime elapsed then some (.error (.httpStatusError c))
      else backoffRetry maxTime delays attempts fuel (i + 1) (elapsed + delays i)

/-- Lichess.get: decorated with backoff.on_exception(backoff.expo,
httpx.HTTPStatusError) — no max_time and no max_tries. -/
def get {α : Type} (delays : Nat → Nat) (attempts : Nat → Attempt α)
    (fuel : Nat) : Option (Except PyError (Response α)) :=
  backoffRetry none delays attempts fuel 0 0

/-- Lichess.post: decorated with backoff.on_exception(backoff.expo,
httpx.HTTPStatusError, max_time=300). -/
def post {α : Type} (delays : Nat → Nat) (attempts : Nat → Attempt α)
    (fuel : Nat) : Option (Except PyError (Response α)) :=
  backoffRetry (some 300) delays attempts fuel 0 0

/-- Lichess.accept_challenge applied to the outcome of its awaited
self.post call: an exception from post propagates; a returned response
yields True exactly when its status is 200. -/
def accept_challenge {α : Type} (postResult : Except PyError (Response α)) :
    Except PyError Bool :=
  match postResult with
  | .error e => .error e
  | .ok r => .ok (decide (r.status_code = 200))

/-- One entry of the nowPlaying array of GET /api/account/playing, reduced
to the single field the source reads. -/
structure GameInfo where
  gameId : String
deriving DecidableEq

/-- Lichess.get_ongoing_games applied to the outcome of its awaited
self.get call: an exception propagates; a 200 response yields the gameId
of every nowPlaying entry; any other returned status yields the empty
list. -/
def get_ongoing_games
    (getResult : Except PyError (Response (List GameInfo))) :
    Except PyError (List String) :=
  match getResult with
  | .error e => .error e
  | .ok r =>
    if r.status_code = 200 then .ok (r.body.map GameInfo.gameId)
    else .ok []

end Lichess

/-- A decoded stream event: the dict the source builds from one line, as
its type discriminator plus an opaque key/value payload. -/
structure Event where
  type : String
  payload : List (String × String)
deriving DecidableEq

/-- The dict the source builds for a blank line: the literal with a single
key, type mapped to ping. -/
def pingEvent : Event := { type := "ping", payload := [] }

/-- Python str.strip applied to a line, for the line.strip() truthiness
test (a string is truthy exactly when it is nonempty after stripping):
remove leading and trailing whitespace characters. -/
def pyStrip (s : String) : String :=
  String.mk
    (((s.data.dropWhile Char.isWhitespace).reverse.dropWhile
        Char.isWhitespace).reverse)

/-- How a successfully opened stream's line iteration ends: the server
closes it gracefully (the async-with block exits and the generator runs
its return), or the connection drops mid-read, raising a transport
error. -/
inductive StreamEnd where
  | graceful
  | disconnected
deriving DecidableEq

/-- One iteration of the while-True reconnect loop as the environment
resolves it: opening the stream raises a transport error, or the stream
opens with a status and delivers some lines before ending. -/
inductive SessionOutcome where
  | connectError
  | opened (status : Nat) (lines : List String) (ending : StreamEnd)
deriving DecidableEq

namespace Lichess

/-- The body of the line loop shared by both stream readers: a line that is
truthy after stripping goes through json.loads (the decode parameter); a
blank line becomes the synthetic ping event. -/
def readLine (decode : String → Except PyError Event) (line : String) :
    Except PyError Event :=
  if pyStrip line ≠ "" then decode line else .ok pingEvent

/-- The async-for over response.aiter_lines(): each line yields an event
via readLine until a raised exception cuts the iteration short or the
session ends (gracefully, or with a mid-read transport error). Returns
the events yielded and the exception, if any, that escaped the loop. -/
def readLines (decode : String → Except PyError Event) :
    List String → StreamEnd → List Event × Option PyError
  | [], .graceful => ([], none)
  | [], .disconnected => ([], some .transportError)
  | line :: rest, ending =>
    match readLine decode line with
    | .error e => ([], some e)
    | .ok ev =>
      match readLines decode rest ending with
      | (evs, r) => (ev :: evs, r)

/-- The try-block of one reconnect-loop iteration: a connect failure raises
a transport error before any line is read; an opened stream first runs
response.raise_for_status(), which raises HTTPStatusError exactly for a
status of 400 or above, and otherwise iterates the lines. Returns the
events yielded during the iteration and the exception, if any, that the
try-block raised (none means the block ran to completion). -/
def tryBody (decode : String → Except PyError Event) :
    SessionOutcome → List Event × Option PyError
  | .connectError => ([], some .transportError)
  | .opened status lines ending =>
    if 400 ≤ status then ([], some (.httpStatusError status))
    else readLines decode lines ending

/-- The observable outcome of driving a fuel-bounded run of a stream
reader: the generator returned (its event sequence ended), an uncaught
exception propagated to the consumer, or the fuel ran out with the
reconnect loop still going. In each case the events yielded so far are
recorded. -/
inductive ReaderResult where
  | terminated (events : List Event)
  | raised (events : List Event) (e : PyError)
  | stillRunning (events : List Event)
deriving DecidableEq

/-- Lichess.watch_control_stream: while True, run one session's try-block;
if it completes, the generator returns; a raised HTTPStatusError is caught
by the except clause and the loop immediately re-opens the stream (no
sleep in the source); any other exception is not caught and propagates to
the consumer. Fuel counts sessions; i indexes the environment's session
sequence; acc holds the events yielded so far. -/
def watch_control_stream (decode : String → Except PyError Event)
    (sessions : Nat → SessionOutcome) :
    Nat → Nat → List Event → ReaderResult
  | 0, _, acc => .stillRunning acc
  | fuel + 1, i, acc =>
    match tryBody decode (sessions i) with
    | (evs, none) => .terminated (acc ++ evs)
    | (evs, some (.httpStatusError _)) =>
      watch_control_stream decode sessions fuel (i + 1) (acc ++ evs)
    | (evs, some .transportError) => .raised (acc ++ evs) .transportError
    | (evs, some .decodeError) => .raised (acc ++ evs) .decodeError

/-- Lichess.watch_game_stream: as watch_control_stream, except that the
except clause, on a caught HTTPStatusError, awaits get_ongoing_games (its
underlying self.get outcome supplied by the checks environment, consumed
at index j): an exception from that call propagates; if the game id is not
among the returned ids the generator returns; otherwise the loop
re-opens the stream. -/
def watch_game_stream (decode : String → Except PyError Event)
    (game_id : String) (sessions : Nat → SessionOutcome)
    (checks : Nat → Except PyError (Response (List GameInfo))) :
    Nat → Nat → Nat → List Event → ReaderResult
  | 0, _, _, acc => .stillRunning acc
  | fuel + 1, i, j, acc =>
    match tryBody decode (sessions i) with
    | (evs, none) => .terminated (acc ++ evs)
    | (evs, some (.httpStatusError _)) =>
      match get_ongoing_games (checks j) with
      | .error e => .raised (acc ++ evs) e
      | .ok games =>
        if game_id ∈ games then
          watch_game_stream decode game_id sessions checks fuel (i + 1)
            (j + 1) (acc ++ evs)
        else .terminated (acc ++ evs)
    | (evs, some .transportError) => .raised (acc ++ evs) .transportError
    | (evs, some .decodeError) => .raised (acc ++ evs) .decodeError

end Lichess

/-- The calls EventHandler.run makes on its GameManager collaborator, in
program order: the asyncio.create_task of the manager's run coroutine,
then one entry per routed event. on_challenge is the awaited coroutine;
the other handlers are plain synchronous calls. -/
inductive ManagerCall where
  | startTask
  | on_game_start (e : Event)
  | on_game_finish
  | on_challenge (e : Event)
  | on_challenge_cancel (e : Event)
deriving DecidableEq

namespace EventHandler

/-- The elif chain in the body of EventHandler.run's async-for: route one
event by its type field to the manager calls it triggers. ping and
challengeDeclined hit continue; a type matching no branch falls through
the chain, also a no-op. -/
def handleEvent (e : Event) : List ManagerCall :=
  if e.type = "ping" then []
  else if e.type = "gameStart" then [.on_game_start e]
  else if e.type = "gameFinish" then [.on_game_finish]
  else if e.type = "challenge" then [.on_challenge e]
  else if e.type = "challengeCanceled" then [.on_challenge_cancel e]
  else if e.type = "challengeDeclined" then []
  else []

/-- EventHandler.run over the events the control stream yields: start the
manager's background task once, then process each event in stream order,
each event's manager calls completing before the next event is taken
(the challenge handler is awaited inside the loop body). -/
def run (events : List Event) : List ManagerCall :=
  ManagerCall.startTask :: events.flatMap handleEvent

end EventHandler

/-- The event types the elif chain of EventHandler.run names. -/
def knownTypes : List String :=
  ["ping", "gameStart", "gameFinish", "challenge", "challengeCanceled",
   "challengeDeclined"]

/-! Concrete environments used to instantiate the theorems. -/

/-- Constant one-second sleep schedule. -/
def d1 : Nat → Nat := fun _ => 1

/-- Every attempt comes back 500 Internal Server Error. -/
def all500 : Nat → Attempt Unit := fun _ => .resp { status_code := 500, body := () }

/-- Every attempt raises a transport/network error. -/
def allNetErr : Nat → Attempt Unit := fun _ => .netErr

/-- Every attempt comes back 404 Not Found. -/
def all404 : Nat → Attempt Unit := fun _ => .resp { status_code := 404, body := () }

/-- A json.loads stand-in that decodes every line to an event whose type is
the line itself. -/
def decodeAny : String → Except PyError Event :=
  fun s => .ok { type := s, payload := [] }

/-- A json.loads stand-in that fails on every line. -/
def decodeNever : String → Except PyError Event := fun _ => .error .decodeError

/-- Every reconnect attempt fails to open the stream. -/
def connFailSessions : Nat → SessionOutcome := fun _ => .connectError

/-- Every session opens with 200, delivers one blank line and closes
gracefully. -/
def gracefulPingSessions : Nat → SessionOutcome :=
  fun _ => .opened 200 [""] .graceful

/-- Every session opens with 200, delivers one line and closes
gracefully. -/
def gracefulLineSessions : Nat → SessionOutcome :=
  fun _ => .opened 200 ["a"] .graceful

/-- Every session is refused with 429 Too Many Requests at open. -/
def status429Sessions : Nat → SessionOutcome :=
  fun _ => .opened 429 [] .graceful

/-- Every session opens with 200 and then the connection drops before any
line arrives. -/
def discSessions : Nat → SessionOutcome := fun _ => .opened 200 [] .disconnected

/-- Every ongoing-games query returns 200 with game g1 listed. -/
def presentCheck : Nat → Except PyError (Response (List Lichess.GameInfo)) :=
  fun _ => .ok { status_code := 200, body := [{ gameId := "g1" }] }

/-- Every ongoing-games query returns 200 with no games listed. -/
def emptyCheck : Nat → Except PyError (Response (List Lichess.GameInfo)) :=
  fun _ => .ok { status_code := 200, body := [] }

/-- Every ongoing-games query returns 404, its body nonetheless naming
game g1 (the environment knows the game is in fact still running). -/
def notFoundCheck : Nat → Except PyError (Response (List Lichess.GameInfo)) :=
  fun _ => .ok { status_code := 404, body := [{ gameId := "g1" }] }

/-! Helper lemmas about the backoff retry loop, shared by several
claims. -/

/-- With no max_time, a run whose every attempt raises HTTPStatusError
never gives up: it is still retrying whenever the fuel runs out. -/
theorem backoffRetry_all_status_none {α : Type} (delays : Nat → Nat)
    (attempts : Nat → Attempt α)
    (h5 : ∀ k, ∃ c, Lichess.requestOnce (attempts k)
      = .error (.httpStatusError c)) :
    ∀ fuel i elapsed,
      Lichess.backoffRetry none delays attempts fuel i elapsed = none := by
  intro fuel
  induction fuel with
  | zero => intro i elapsed; rfl
  | succ n ih =>
    intro i elapsed
    obtain ⟨c, hc⟩ := h5 i
    simp [Lichess.backoffRetry, hc, Lichess.giveupTime, ih]

/-- With max_time T, positive sleep delays and every attempt raising
HTTPStatusError, the loop gives up — re-raising the final exception — once
enough fuel is available for the elapsed time to reach T. -/
theorem backoffRetry_all_status_gives_up {α : Type} (T : Nat)
    (delays : Nat → Nat) (attempts : Nat → Attempt α)
    (h5 : ∀ k, ∃ c, Lichess.requestOnce (attempts k)
      = .error (.httpStatusError c))
    (hd : ∀ k, 1 ≤ delays k) :
    ∀ fuel i elapsed, T + 1 ≤ fuel + elapsed → 1 ≤ fuel →
      ∃ c, Lichess.backoffRetry (some T) delays attempts fuel i elapsed
        = some (.error (.httpStatusError c)) := by
  intro fuel
  induction fuel with
  | zero => intro i elapsed hTe h1; omega
  | succ n ih =>
    intro i elapsed hTe h1
    obtain ⟨c, hc⟩ := h5 i
    by_cases hT : T ≤ elapsed
    · exact ⟨c, by simp [Lichess.backoffRetry, hc, Lichess.giveupTime, hT]⟩
    · have hd1 := hd i
      obtain ⟨c2, hc2⟩ := ih (i + 1) (elapsed + delays i) (by omega) (by omega)
      exact ⟨c2, by simp [Lichess.backoffRetry, hc, Lichess.giveupTime, hT, hc2]⟩

/-! Claim theorems. -/

set_option maxRecDepth 8000

/-- Claim C2 counterexample: an invocation of Lichess.post that hits a
network error on its first attempt does not retry and does not give the
caller a failed/empty result — the transport error is raised
immediately. -/
theorem C2_counterexample :
    Lichess.post d1 allNetErr 10 = some (.error .transportError) := rfl

/-- Claim C2 (amended): a command invocation that hits a network error is
never retried: the backoff decorator only catches HTTPStatusError, so the
first network error is raised to the caller at once, under either
decorator configuration and at any point of the retry loop. -/
theorem C2_amended {α : Type} (maxTime : Option Nat) (delays : Nat → Nat)
    (attempts : Nat → Attempt α) (fuel i elapsed : Nat)
    (h : attempts i = .netErr) :
    Lichess.backoffRetry maxTime delays attempts (fuel + 1) i elapsed
      = some (.error .transportError) := by
  simp [Lichess.backoffRetry, Lichess.requestOnce, h]

/-- Witness for C2_amended at a concrete input. -/
theorem C2_amended_witness :
    Lichess.backoffRetry (some 300) d1 allNetErr 5 0 0
      = some (.error .transportError) :=
  C2_amended (some 300) d1 allNetErr 4 0 0 rfl

/-- Claim C3 counterexample: when persistent 5xx responses exhaust
Lichess.post's 300-second backoff ceiling, the command does not return a
failure outcome — the final HTTPStatusError is re-raised, and
accept_challenge passes it on rather than returning False. -/
theorem C3_counterexample :
    Lichess.post d1 all500 302 = some (.error (.httpStatusError 500))
    ∧ Lichess.accept_challenge
        (Except.error (.httpStatusError 500) : Except PyError (Response Unit))
        = Except.error (.httpStatusError 500) :=
  ⟨rfl, rfl⟩

/-- Claim C3 (amended): when persistent 5xx responses exhaust the backoff
ceiling of Lichess.post, the final HTTPStatusError is raised to the
caller (accept_challenge propagates the exception instead of producing a
boolean); the distinguishable False outcome exists only for responses
that are returned without retries. -/
theorem C3_amended {α : Type} (delays : Nat → Nat) (attempts : Nat → Attempt α)
    (fuel : Nat)
    (h5 : ∀ k, ∃ c, Lichess.requestOnce (attempts k)
      = .error (.httpStatusError c))
    (hd : ∀ k, 1 ≤ delays k) (hf : 301 ≤ fuel) :
    ∃ c, Lichess.post delays attempts fuel = some (.error (.httpStatusError c))
      ∧ Lichess.accept_challenge
          (Except.error (.httpStatusError c) : Except PyError (Response α))
          = Except.error (.httpStatusError c) := by
  obtain ⟨c, hc⟩ := backoffRetry_all_status_gives_up 300 delays attempts h5 hd
    fuel 0 0 (by omega) (by omega)
  exact ⟨c, hc, rfl⟩

/-- Witness for C3_amended at a concrete input. -/
theorem C3_amended_witness :
    ∃ c, Lichess.post d1 all500 302 = some (.error (.httpStatusError c))
      ∧ Lichess.accept_challenge
          (Except.error (.httpStatusError c) : Except PyError (Response Unit))
          = Except.error (.httpStatusError c) :=
  C3_amended d1 all500 302 (fun _ => ⟨500, rfl⟩) (fun _ => le_refl 1) (by omega)

/-- Claim C4 counterexample: under persistent 5xx responses with one-second
sleeps, a GET command is still retrying after 1000 attempts — 1000 seconds
of elapsed time, far beyond every stated ceiling — while the same run
through POST gave up at its 300-second ceiling: the GET policy is not
bounded by any maximum total elapsed time. -/
theorem C4_counterexample :
    Lichess.get d1 all500 1000 = none
    ∧ Lichess.post d1 all500 302 = some (.error (.httpStatusError 500)) :=
  ⟨backoffRetry_all_status_none d1 all500 (fun _ => ⟨500, rfl⟩) 1000 0 0, rfl⟩

/-- Claim C4 (amended): only the POST executor's 5xx retry policy is
bounded — it gives up once 300 seconds have elapsed; the GET executor has
no ceiling and retries persistent 5xx responses indefinitely, never
giving up no matter how much fuel the run is given. -/
theorem C4_amended {α : Type} (delays : Nat → Nat) (attempts : Nat → Attempt α)
    (h5 : ∀ k, ∃ c, Lichess.requestOnce (attempts k)
      = .error (.httpStatusError c))
    (hd : ∀ k, 1 ≤ delays k) :
    (∀ fuel, Lichess.get delays attempts fuel = none)
    ∧ ∀ fuel, 301 ≤ fuel →
        ∃ c, Lichess.post delays attempts fuel
          = some (.error (.httpStatusError c)) := by
  refine ⟨fun fuel => backoffRetry_all_status_none delays attempts h5 fuel 0 0,
    fun fuel hf => ?_⟩
  exact backoffRetry_all_status_gives_up 300 delays attempts h5 hd fuel 0 0
    (by omega) (by omega)

/-- Witness for C4_amended at a concrete input. -/
theorem C4_amended_witness :
    Lichess.get d1 all500 7 = none
    ∧ ∃ c, Lichess.post d1 all500 301 = some (.error (.httpStatusError c)) :=
  ⟨(C4_amended d1 all500 (fun _ => ⟨500, rfl⟩) (fun _ => le_refl 1)).1 7,
   (C4_amended d1 all500 (fun _ => ⟨500, rfl⟩) (fun _ => le_refl 1)).2 301
     (by omega)⟩

/-- Claim C5: a command invocation whose attempt comes back with a 4xx
status is not retried: whatever decorator configuration, sleep schedule,
remaining fuel and later attempts, the 4xx response is returned to the
caller at that very step, so exactly one physical request is issued. -/
theorem C5_no_retry_on_4xx {α : Type} (maxTime : Option Nat)
    (delays : Nat → Nat) (attempts : Nat → Attempt α)
    (fuel i elapsed : Nat) (r : Response α)
    (h : attempts i = .resp r) (h4 : 400 ≤ r.status_code)
    (h4b : r.status_code < 500) :
    Lichess.backoffRetry maxTime delays attempts (fuel + 1) i elapsed
      = some (.ok r) := by
  simp [Lichess.backoffRetry, Lichess.requestOnce, h, h4b]

/-- Witness for C5_no_retry_on_4xx at a concrete input. -/
theorem C5_no_retry_on_4xx_witness :
    Lichess.backoffRetry (some 300) d1 all404 1 0 0
      = some (.ok { status_code := 404, body := () }) :=
  C5_no_retry_on_4xx (some 300) d1 all404 0 0 0
    { status_code := 404, body := () } rfl (by decide) (by decide)

/-- Claim C1 counterexample: a network error while opening the control
stream is propagated to the consumer of the event sequence — the
reconnect loop only absorbs HTTPStatusError. -/
theorem C1_counterexample :
    Lichess.watch_control_stream decodeAny connFailSessions 5 0 []
      = .raised [] .transportError := rfl

/-- Claim C1 (amended): only a raised HTTPStatusError (non-2xx status) is
absorbed by the control-stream reconnect loop, which then restarts
immediately from the stream-open step, with no sleep; any other fault of
the try-block — a transport/network error at open or mid-read, or a JSON
decode error — propagates to the consumer and ends the sequence. -/
theorem C1_amended (decode : String → Except PyError Event)
    (sessions : Nat → SessionOutcome) (fuel i : Nat) (acc evs : List Event) :
    (∀ c, Lichess.tryBody decode (sessions i)
        = (evs, some (.httpStatusError c)) →
      Lichess.watch_control_stream decode sessions (fuel + 1) i acc
        = Lichess.watch_control_stream decode sessions fuel (i + 1) (acc ++ evs))
    ∧ ∀ e, Lichess.tryBody decode (sessions i) = (evs, some e) →
        (∀ c, e ≠ .httpStatusError c) →
        Lichess.watch_control_stream decode sessions (fuel + 1) i acc
          = .raised (acc ++ evs) e := by
  constructor
  · intro c h
    simp [Lichess.watch_control_stream, h]
  · intro e h hne
    cases e with
    | transportError => simp [Lichess.watch_control_stream, h]
    | decodeError => simp [Lichess.watch_control_stream, h]
    | httpStatusError c => exact absurd rfl (hne c)

/-- Witness for C1_amended at a concrete input. -/
theorem C1_amended_witness :
    Lichess.watch_control_stream decodeAny status429Sessions 3 0 []
      = Lichess.watch_control_stream decodeAny status429Sessions 2 1 [] :=
  (C1_amended decodeAny status429Sessions 2 0 [] []).1 429 rfl

/-- Claim C6 counterexample: a control-stream session that ends gracefully
(end of stream without error) terminates the reader — the generator runs
its return statement instead of reopening the stream. -/
theorem C6_counterexample :
    Lichess.watch_control_stream decodeAny gracefulPingSessions 5 0 []
      = .terminated [pingEvent] := rfl

/-- Claim C6 (amended): the control-stream reader loops only across
sessions that raise HTTPStatusError; a session whose try-block runs to
completion — a graceful end-of-stream — makes the generator return,
ending the event sequence. -/
theorem C6_amended (decode : String → Except PyError Event)
    (sessions : Nat → SessionOutcome) (fuel i : Nat) (acc evs : List Event) :
    (Lichess.tryBody decode (sessions i) = (evs, none) →
      Lichess.watch_control_stream decode sessions (fuel + 1) i acc
        = .terminated (acc ++ evs))
    ∧ ∀ c, Lichess.tryBody decode (sessions i)
        = (evs, some (.httpStatusError c)) →
      Lichess.watch_control_stream decode sessions (fuel + 1) i acc
        = Lichess.watch_control_stream decode sessions fuel (i + 1)
            (acc ++ evs) := by
  constructor
  · intro h
    simp [Lichess.watch_control_stream, h]
  · intro c h
    simp [Lichess.watch_control_stream, h]

/-- Witness for C6_amended at a concrete input. -/
theorem C6_amended_witness :
    Lichess.watch_control_stream decodeAny gracefulLineSessions 3 0 []
      = .terminated [{ type := "a", payload := [] }] :=
  (C6_amended decodeAny gracefulLineSessions 2 0 []
    [{ type := "a", payload := [] }]).1 rfl

/-- Claim C7 counterexample: a per-game stream disconnect (transport error
mid-read) is not followed by the ongoing-games check or a reconnect, even
though the game is still listed as ongoing — the error propagates out of
the event sequence. -/
theorem C7_counterexample :
    Lichess.watch_game_stream decodeAny "g1" discSessions presentCheck 5 0 0 []
      = .raised [] .transportError := rfl

/-- Claim C7 (amended): for a per-game stream fault that raises
HTTPStatusError, the reader terminates its sequence when the game id is
absent from the ongoing-games result and reconnects when it is still
present; faults that are not HTTPStatusError (disconnects, decode errors)
instead propagate out of the sequence. -/
theorem C7_amended (decode : String → Except PyError Event) (gid : String)
    (sessions : Nat → SessionOutcome)
    (checks : Nat → Except PyError (Response (List Lichess.GameInfo)))
    (fuel i j : Nat) (acc evs : List Event) (c : Nat) (games : List String)
    (hs : Lichess.tryBody decode (sessions i)
      = (evs, some (.httpStatusError c)))
    (hc : Lichess.get_ongoing_games (checks j) = .ok games) :
    (gid ∉ games →
      Lichess.watch_game_stream decode gid sessions checks (fuel + 1) i j acc
        = .terminated (acc ++ evs))
    ∧ (gid ∈ games →
      Lichess.watch_game_stream decode gid sessions checks (fuel + 1) i j acc
        = Lichess.watch_game_stream decode gid sessions checks fuel (i + 1)
            (j + 1) (acc ++ evs)) := by
  constructor
  · intro hmem
    simp [Lichess.watch_game_stream, hs, hc, hmem]
  · intro hmem
    simp [Lichess.watch_game_stream, hs, hc, hmem]

/-- Witness for C7_amended at a concrete input. -/
theorem C7_amended_witness :
    Lichess.watch_game_stream decodeAny "g1" status429Sessions emptyCheck
      3 0 0 [] = .terminated [] :=
  (C7_amended decodeAny "g1" status429Sessions emptyCheck 2 0 0 [] [] 429 []
    rfl rfl).1 (by simp)

/-- Claim C8: EventHandler.run starts the manager task first and routes
each control-stream event by its type field per the dispatch table: ping,
challengeDeclined and unrecognized types trigger no manager call;
gameStart, gameFinish and challengeCanceled trigger the corresponding
synchronous handler; challenge triggers the awaited asynchronous handler,
whose calls complete before any later event's calls, as the program-order
call list of run shows. -/
theorem C8_routing (e : Event) (events : List Event) :
    (e.type = "ping" → EventHandler.handleEvent e = [])
    ∧ (e.type = "gameStart" →
        EventHandler.handleEvent e = [.on_game_start e])
    ∧ (e.type = "gameFinish" → EventHandler.handleEvent e = [.on_game_finish])
    ∧ (e.type = "challenge" → EventHandler.handleEvent e = [.on_challenge e])
    ∧ (e.type = "challengeCanceled" →
        EventHandler.handleEvent e = [.on_challenge_cancel e])
    ∧ (e.type = "challengeDeclined" → EventHandler.handleEvent e = [])
    ∧ (e.type ∉ knownTypes → EventHandler.handleEvent e = [])
    ∧ EventHandler.run (e :: events)
        = .startTask :: (EventHandler.handleEvent e
            ++ events.flatMap EventHandler.handleEvent) := by
  refine ⟨?_, ?_, ?_, ?_, ?_, ?_, ?_, ?_⟩
  · intro h; simp [EventHandler.handleEvent, h]
  · intro h; simp [EventHandler.handleEvent, h]
  · intro h; simp [EventHandler.handleEvent, h]
  · intro h; simp [EventHandler.handleEvent, h]
  · intro h; simp [EventHandler.handleEvent, h]
  · intro h; simp [EventHandler.handleEvent, h]
  · intro hmem
    simp [knownTypes, not_or] at hmem
    obtain ⟨h1, h2, h3, h4, h5, h6⟩ := hmem
    simp [EventHandler.handleEvent, h1, h2, h3, h4, h5, h6]
  · rfl

/-- Witness for C8_routing at concrete inputs. -/
theorem C8_routing_witness :
    EventHandler.handleEvent { type := "challenge", payload := [] }
      = [.on_challenge { type := "challenge", payload := [] }]
    ∧ EventHandler.handleEvent { type := "somethingElse", payload := [] }
        = [] :=
  ⟨(C8_routing { type := "challenge", payload := [] } []).2.2.2.1 rfl,
   (C8_routing { type := "somethingElse", payload := [] } []).2.2.2.2.2.2.1
     (by decide)⟩

/-- Claim C9: a blank line (whitespace-only, falsy after str.strip) yields
exactly the synthetic ping event, whatever json.loads would do — it is
never decoded, so it can never cause a decode error — and a non-blank
line is handed to json.loads, whose result is the yielded event. -/
theorem C9_blank_line (decode decode2 : String → Except PyError Event)
    (line : String) :
    (pyStrip line = "" →
      Lichess.readLine decode line = .ok pingEvent
      ∧ Lichess.readLine decode line = Lichess.readLine decode2 line)
    ∧ (pyStrip line ≠ "" → Lichess.readLine decode line = decode line) := by
  constructor
  · intro h
    constructor <;> simp [Lichess.readLine, h]
  · intro h
    simp [Lichess.readLine, h]

/-- Witness for C9_blank_line at a concrete input: a whitespace-only line
yields ping even under an always-failing decoder. -/
theorem C9_blank_line_witness :
    Lichess.readLine decodeNever " " = .ok pingEvent
    ∧ Lichess.readLine decodeNever " " = Lichess.readLine decodeAny " " :=
  (C9_blank_line decodeNever decodeAny " ").1 (by decide)

/-- Claim C10: a non-200 response to the ongoing-games query — a 4xx
included — makes get_ongoing_games return the empty list, the same value
a 200 response with no games produces, so callers cannot tell the two
apart; consequently the per-game reader, finding its game id not in the
empty list, terminates its sequence even if the response body in fact
still lists the game. -/
theorem C10_nonok_empty (r : Response (List Lichess.GameInfo))
    (h : r.status_code ≠ 200) (decode : String → Except PyError Event)
    (gid : String) (sessions : Nat → SessionOutcome)
    (checks : Nat → Except PyError (Response (List Lichess.GameInfo)))
    (fuel i j : Nat) (acc evs : List Event) (c : Nat)
    (hs : Lichess.tryBody decode (sessions i)
      = (evs, some (.httpStatusError c)))
    (hc : checks j = .ok r) :
    Lichess.get_ongoing_games (.ok r) = .ok []
    ∧ Lichess.get_ongoing_games (.ok { status_code := 200, body := [] })
        = .ok []
    ∧ Lichess.watch_game_stream decode gid sessions checks (fuel + 1) i j acc
        = .terminated (acc ++ evs) := by
  have hg : Lichess.get_ongoing_games (checks j) = .ok [] := by
    rw [hc]; simp [Lichess.get_ongoing_games, h]
  refine ⟨?_, ?_, ?_⟩
  · simp [Lichess.get_ongoing_games, h]
  · simp [Lichess.get_ongoing_games]
  · simp [Lichess.watch_game_stream, hs, hg]

/-- Witness for C10_nonok_empty at a concrete input: the query comes back
404 with the game listed in the body, yet the reader terminates. -/
theorem C10_nonok_empty_witness :
    Lichess.get_ongoing_games
      (.ok { status_code := 404, body := [{ gameId := "g1" }] }) = .ok []
    ∧ Lichess.get_ongoing_games (.ok { status_code := 200, body := [] })
        = .ok []
    ∧ Lichess.watch_game_stream decodeAny "g1" status429Sessions notFoundCheck
        3 0 0 [] = .terminated [] :=
  C10_nonok_empty { status_code := 404, body := [{ gameId := "g1" }] }
    (by decide) decodeAny "g1" status429Sessions notFoundCheck 2 0 0 [] [] 429
    rfl rfl

end AsyncLio
